import Mathlib

/-!
Verification development for the cabinetry quoting calculator
(src/js/services/calculator.js and src/js/utils/constants.js).

The pricing pipeline is embedded shallowly over the rationals:
JavaScript numbers are modelled as exact rationals, JavaScript
null/undefined as Option, and the truthiness tests the source performs
(the `||` operator and bare `if (x)` tests on numbers and strings)
are modelled explicitly.  Ambient state the source reads (the global
config held in localStorage, the quote overrides on the window
singleton, and the three DOM project fields) is collected into an
explicit Env record, so every source function becomes a pure function
of Env and its arguments.
-/

/-- One row of the finish-rate table: unshaped and shaped USD/sqm. -/
structure FinishRate where
  unshaped : ℚ
  shaped : ℚ
deriving DecidableEq

/-- Carcass supplier rates, accessed by field exactly as the source does. -/
structure CarcassRatesT where
  holike : ℚ
  allure : ℚ
deriving DecidableEq

/-- globalConfig.rates.  The three markup fields are optional because the
source guards them with the ?? chain markupRateFull ?? markupRate ?? 80. -/
structure ConfigRates where
  shippingRate : ℚ
  installRate : ℚ
  drawerRate : ℚ
  accessoryRate : ℚ
  markupRateFull : Option ℚ := none
  markupRateSingle : Option ℚ := none
  markupRate : Option ℚ := none
  discountRate : ℚ
  exchangeRate : ℚ
deriving DecidableEq

/-- globalConfig.dimensions. -/
structure ConfigDimensions where
  defaultUpperHt : ℚ
  defaultBaseHt : ℚ
  defaultUpperDp : ℚ
  defaultBaseDp : ℚ
  defaultPantryDp : ℚ
deriving DecidableEq

/-- globalConfig.materials. -/
structure MaterialsT where
  carcassRates : CarcassRatesT
  finishRates : List (String × FinishRate)
deriving DecidableEq

/-- The global configuration record (tier 1). -/
structure GlobalConfig where
  rates : ConfigRates
  dimensions : ConfigDimensions
  materials : MaterialsT
deriving DecidableEq

/-- Quote-level overrides (tier 2); none means inherit. -/
structure QuoteOverrides where
  shippingRate : Option ℚ := none
  installRate : Option ℚ := none
  drawerRate : Option ℚ := none
  accessoryRate : Option ℚ := none
  exchangeRate : Option ℚ := none
  markupRate : Option ℚ := none
  discountRate : Option ℚ := none
  defaultUpperHt : Option ℚ := none
  defaultBaseHt : Option ℚ := none
  defaultUpperDp : Option ℚ := none
  defaultBaseDp : Option ℚ := none
  defaultPantryDp : Option ℚ := none
deriving DecidableEq

/-- Ambient state read by the calculator: the stored global config
(ensureGlobalConfig), the window singleton quote overrides
(getCurrentQuote), and the three DOM project fields read by
getProjectSettings.  none models an absent or empty DOM value. -/
structure Env where
  globalConfig : GlobalConfig
  quoteOverrides : QuoteOverrides := {}
  projectType : Option String := none
  defaultCeiling : Option String := none
  carcassSupplier : Option String := none
deriving DecidableEq

/-- An entry of lineItem.additionalItems; only price is read. -/
structure AdditionalItem where
  price : Option ℚ := none
deriving DecidableEq

/-- item.overrides.dimensions (tier 3, nested schema). -/
structure DimOverrides where
  ceilingFt : Option String := none
  upperHt : Option ℚ := none
  baseHt : Option ℚ := none
  upperDp : Option ℚ := none
  baseDp : Option ℚ := none
  pantryDp : Option ℚ := none
deriving DecidableEq

/-- item.overrides.rates (tier 3, nested schema). -/
structure RateOverrides where
  shippingRate : Option ℚ := none
  installRate : Option ℚ := none
  drawerRate : Option ℚ := none
  accessoryRate : Option ℚ := none
  markupRate : Option ℚ := none
  discountRate : Option ℚ := none
deriving DecidableEq

/-- item.overrides. -/
structure ItemOverrides where
  dimensions : DimOverrides := {}
  rates : RateOverrides := {}
deriving DecidableEq

/-- A line item, including the legacy flat override fields the source
still consults as fallbacks. -/
structure Item where
  upperLF : Option ℚ := none
  baseLF : Option ℚ := none
  pantryLF : Option ℚ := none
  drawers : Option ℚ := none
  accessories : Option ℚ := none
  finish : Option String := none
  shaped : Option String := none
  openShelf : Option String := none
  carcassSupplier : Option String := none
  overrides : ItemOverrides := {}
  ceilingFt : Option String := none
  upperHt : Option ℚ := none
  baseHt : Option ℚ := none
  upperDp : Option ℚ := none
  baseDp : Option ℚ := none
  pantryDp : Option ℚ := none
  overrideShippingRate : Option ℚ := none
  overrideInstallRate : Option ℚ := none
  overrideDrawerRate : Option ℚ := none
  overrideAccessoryRate : Option ℚ := none
  overrideMarkupRate : Option ℚ := none
  overrideDiscountRate : Option ℚ := none
  additionalItems : Option (List AdditionalItem) := none
deriving DecidableEq

/-- JavaScript string-or-default: s || d, where the empty string is falsy. -/
def strOr : Option String → String → String
  | none, d => d
  | some s, d => if s = "" then d else s

/-- JavaScript truthiness filter on an optional number: 0 is falsy. -/
def truthyQ : Option ℚ → Option ℚ
  | none => none
  | some v => if v = 0 then none else some v

/-- JavaScript truthiness filter on an optional string: the empty string is falsy. -/
def truthyS : Option String → Option String
  | none => none
  | some s => if s = "" then none else some s

/-- getDimOverride for numeric keys: the nested value if truthy, else the
legacy flat value if truthy, else null. -/
def dimOverrideQ (nested flat : Option ℚ) : Option ℚ :=
  Option.orElse (truthyQ nested) (fun _ => truthyQ flat)

/-- getDimOverride for the ceilingFt key (a string-valued dimension). -/
def dimOverrideS (nested flat : Option String) : Option String :=
  Option.orElse (truthyS nested) (fun _ => truthyS flat)

/-- getLineItemOverride: the nested value unless null, else the flat value
unless null, else null (a set-to-zero override is honored here). -/
def rateOverride (nested flat : Option ℚ) : Option ℚ :=
  Option.orElse nested (fun _ => flat)

/-- FINISH_RATES from constants.js (USD per square meter). -/
def FINISH_RATES : List (String × FinishRate) :=
  [ ("PVC", ⟨100, 200⟩),
    ("Melamine", ⟨70, 70⟩),
    ("Skin", ⟨150, 150⟩),
    ("Paint/Lacquer", ⟨170, 200⟩),
    ("Powder", ⟨100, 200⟩),
    ("Veneer", ⟨440, 440⟩),
    ("PET", ⟨110, 110⟩) ]

/-- CEILING_TO_MM from constants.js. -/
def CEILING_TO_MM : List (String × ℚ) :=
  [("8", 2450), ("9", 2750), ("10", 3050), ("11", 3350), ("12", 3660), ("13", 3960)]

/-- CEILING_TO_UPPER_HT from constants.js. -/
def CEILING_TO_UPPER_HT : List (String × ℚ) :=
  [("8", 760), ("9", 920), ("10", 1070), ("11", 1220), ("12", 1320), ("13", 1473)]

/-- CONVERSION.FEET_TO_METERS from constants.js. -/
def FEET_TO_METERS : ℚ := 0.3048

/-- Table access TABLE[key] || fallback: a missing key, like a zero value,
falls through to the fallback. -/
def lookupOr (table : List (String × ℚ)) (key : String) (fallback : ℚ) : ℚ :=
  (truthyQ (table.lookup key)).getD fallback

/-- FACTORY_DEFAULTS from constants.js (the derived numeric content). -/
def FACTORY_DEFAULTS : GlobalConfig :=
  { rates :=
      { shippingRate := 60
        installRate := 100
        drawerRate := 200
        accessoryRate := 300
        markupRateFull := some 80
        markupRateSingle := some 90
        markupRate := none
        discountRate := 50
        exchangeRate := 1.42 }
    dimensions :=
      { defaultUpperHt := 760
        defaultBaseHt := 920
        defaultUpperDp := 300
        defaultBaseDp := 600
        defaultPantryDp := 600 }
    materials :=
      { carcassRates := { holike := 65, allure := 200 }
        finishRates := FINISH_RATES } }

/-- The result of getProjectSettings. -/
structure Settings where
  projectType : String
  isFullHouse : Bool
  carcassSupplier : String
  carcassRate : ℚ
  defaultCeiling : String
  defaultCeilingMm : ℚ
  shippingRate : ℚ
  installRate : ℚ
  drawerRate : ℚ
  accessoryRate : ℚ
  exchangeRate : ℚ
  markupRate : ℚ
  discountRate : ℚ
  defaultUpperHt : ℚ
  defaultBaseHt : ℚ
  defaultUpperDp : ℚ
  defaultBaseDp : ℚ
  defaultPantryDp : ℚ
  carcassRates : CarcassRatesT
deriving DecidableEq

/-- getProjectSettings from calculator.js: resolves the quote tier over the
global tier and reads the three project-level DOM fields. -/
def getProjectSettings (env : Env) : Settings :=
  let globalConfig := env.globalConfig
  let quote := env.quoteOverrides
  let projectType := strOr env.projectType "full"
  let isFullHouse : Bool := projectType == "full"
  let defaultCeiling := strOr env.defaultCeiling "8"
  let carcassSupplier := strOr env.carcassSupplier "holike"
  let shippingRate := quote.shippingRate.getD globalConfig.rates.shippingRate
  let installRate := quote.installRate.getD globalConfig.rates.installRate
  let drawerRate := quote.drawerRate.getD globalConfig.rates.drawerRate
  let accessoryRate := quote.accessoryRate.getD globalConfig.rates.accessoryRate
  let exchangeRate := quote.exchangeRate.getD globalConfig.rates.exchangeRate
  let globalMarkupRate :=
    if isFullHouse then
      (Option.orElse globalConfig.rates.markupRateFull
        (fun _ => globalConfig.rates.markupRate)).getD 80
    else
      (Option.orElse globalConfig.rates.markupRateSingle
        (fun _ => globalConfig.rates.markupRate)).getD 90
  let markupRate := (quote.markupRate.getD globalMarkupRate) / 100
  let discountRate := (quote.discountRate.getD globalConfig.rates.discountRate) / 100
  let defaultUpperHt := quote.defaultUpperHt.getD globalConfig.dimensions.defaultUpperHt
  let defaultBaseHt := quote.defaultBaseHt.getD globalConfig.dimensions.defaultBaseHt
  let defaultUpperDp := quote.defaultUpperDp.getD globalConfig.dimensions.defaultUpperDp
  let defaultBaseDp := quote.defaultBaseDp.getD globalConfig.dimensions.defaultBaseDp
  let defaultPantryDp := quote.defaultPantryDp.getD globalConfig.dimensions.defaultPantryDp
  let carcassRate :=
    if carcassSupplier = "holike" then globalConfig.materials.carcassRates.holike
    else globalConfig.materials.carcassRates.allure
  { projectType := projectType
    isFullHouse := isFullHouse
    carcassSupplier := carcassSupplier
    carcassRate := carcassRate
    defaultCeiling := defaultCeiling
    defaultCeilingMm := lookupOr CEILING_TO_MM defaultCeiling 2450
    shippingRate := shippingRate
    installRate := installRate
    drawerRate := drawerRate
    accessoryRate := accessoryRate
    exchangeRate := exchangeRate
    markupRate := markupRate
    discountRate := discountRate
    defaultUpperHt := defaultUpperHt
    defaultBaseHt := defaultBaseHt
    defaultUpperDp := defaultUpperDp
    defaultBaseDp := defaultBaseDp
    defaultPantryDp := defaultPantryDp
    carcassRates := globalConfig.materials.carcassRates }

/-- The result of getEffectiveDimensions. -/
structure Dims where
  ceilingFt : String
  ceilingMm : ℚ
  upperHt : ℚ
  baseHt : ℚ
  upperDp : ℚ
  baseDp : ℚ
  pantryDp : ℚ
  carcassSupplier : String
  carcassRate : ℚ
  baseUpperHt : ℚ
deriving DecidableEq

/-- getEffectiveDimensions from calculator.js: the line-item dimension
overrides are read with truthiness tests, so a zero or empty override
falls through to the next tier. -/
def getEffectiveDimensions (env : Env) (item : Item) : Dims :=
  let settings := getProjectSettings env
  let ceilingFt :=
    (dimOverrideS item.overrides.dimensions.ceilingFt item.ceilingFt).getD settings.defaultCeiling
  let ceilingMm := lookupOr CEILING_TO_MM ceilingFt settings.defaultCeilingMm
  let baseUpperHt := lookupOr CEILING_TO_UPPER_HT ceilingFt settings.defaultUpperHt
  let upperHt := (dimOverrideQ item.overrides.dimensions.upperHt item.upperHt).getD baseUpperHt
  let baseHt := (dimOverrideQ item.overrides.dimensions.baseHt item.baseHt).getD settings.defaultBaseHt
  let upperDp := (dimOverrideQ item.overrides.dimensions.upperDp item.upperDp).getD settings.defaultUpperDp
  let baseDp := (dimOverrideQ item.overrides.dimensions.baseDp item.baseDp).getD settings.defaultBaseDp
  let pantryDp := (dimOverrideQ item.overrides.dimensions.pantryDp item.pantryDp).getD settings.defaultPantryDp
  let carcassSupplier := strOr item.carcassSupplier settings.carcassSupplier
  let carcassRate :=
    if carcassSupplier = "holike" then settings.carcassRates.holike
    else settings.carcassRates.allure
  { ceilingFt := ceilingFt
    ceilingMm := ceilingMm
    upperHt := upperHt
    baseHt := baseHt
    upperDp := upperDp
    baseDp := baseDp
    pantryDp := pantryDp
    carcassSupplier := carcassSupplier
    carcassRate := carcassRate
    baseUpperHt := baseUpperHt }

/-- The result of getEffectiveRates. -/
structure Rates where
  shippingRate : ℚ
  installRate : ℚ
  drawerRate : ℚ
  accessoryRate : ℚ
  markupRate : ℚ
  discountRate : ℚ
deriving DecidableEq

/-- getEffectiveRates from calculator.js: line-item rate overrides are
checked against null/undefined (not truthiness), so a zero override is
honored; markup and discount overrides are divided by 100. -/
def getEffectiveRates (env : Env) (item : Item) : Rates :=
  let settings := getProjectSettings env
  let shippingOverride := rateOverride item.overrides.rates.shippingRate item.overrideShippingRate
  let installOverride := rateOverride item.overrides.rates.installRate item.overrideInstallRate
  let drawerOverride := rateOverride item.overrides.rates.drawerRate item.overrideDrawerRate
  let accessoryOverride := rateOverride item.overrides.rates.accessoryRate item.overrideAccessoryRate
  let markupOverride := rateOverride item.overrides.rates.markupRate item.overrideMarkupRate
  let discountOverride := rateOverride item.overrides.rates.discountRate item.overrideDiscountRate
  { shippingRate := shippingOverride.getD settings.shippingRate
    installRate := installOverride.getD settings.installRate
    drawerRate := drawerOverride.getD settings.drawerRate
    accessoryRate := accessoryOverride.getD settings.accessoryRate
    markupRate := (markupOverride.map (fun v => v / 100)).getD settings.markupRate
    discountRate := (discountOverride.map (fun v => v / 100)).getD settings.discountRate }

/-- The upper-cabinet summand of calculateCarcassArea (guarded by upperM > 0). -/
def upperCarcassArea (dims : Dims) (upperM : ℚ) : ℚ :=
  if upperM > 0 then
    2 * (dims.upperHt / 1000) * (dims.upperDp / 1000) +
      2 * upperM * (dims.upperDp / 1000) +
      upperM * (dims.upperHt / 1000)
  else 0

/-- The base-cabinet summand of calculateCarcassArea. -/
def baseCarcassArea (dims : Dims) (baseM : ℚ) : ℚ :=
  if baseM > 0 then
    2 * (dims.baseHt / 1000) * (dims.baseDp / 1000) +
      2 * baseM * (dims.baseDp / 1000) +
      baseM * (dims.baseHt / 1000)
  else 0

/-- The pantry summand of calculateCarcassArea (full ceiling height). -/
def pantryCarcassArea (dims : Dims) (pantryM : ℚ) : ℚ :=
  if pantryM > 0 then
    2 * (dims.ceilingMm / 1000) * (dims.pantryDp / 1000) +
      2 * pantryM * (dims.pantryDp / 1000) +
      pantryM * (dims.ceilingMm / 1000)
  else 0

/-- calculateCarcassArea from calculator.js. -/
def calculateCarcassArea (dims : Dims) (upperM baseM pantryM : ℚ) : ℚ :=
  upperCarcassArea dims upperM + baseCarcassArea dims baseM + pantryCarcassArea dims pantryM

/-- The upper summand of the door area in calculateLineItem. -/
def upperDoorArea (dims : Dims) (upperM : ℚ) : ℚ :=
  upperM * (dims.upperHt / 1000)

/-- The base summand of the door area. -/
def baseDoorArea (dims : Dims) (baseM : ℚ) : ℚ :=
  baseM * (dims.baseHt / 1000)

/-- The pantry summand of the door area (full ceiling height). -/
def pantryDoorArea (dims : Dims) (pantryM : ℚ) : ℚ :=
  pantryM * (dims.ceilingMm / 1000)

/-- (item.upperLF || 0) * CONVERSION.FEET_TO_METERS. -/
def itemUpperM (item : Item) : ℚ := item.upperLF.getD 0 * FEET_TO_METERS

/-- (item.baseLF || 0) * CONVERSION.FEET_TO_METERS. -/
def itemBaseM (item : Item) : ℚ := item.baseLF.getD 0 * FEET_TO_METERS

/-- (item.pantryLF || 0) * CONVERSION.FEET_TO_METERS. -/
def itemPantryM (item : Item) : ℚ := item.pantryLF.getD 0 * FEET_TO_METERS

/-- breakdown.itemData. -/
structure ItemData where
  upperLF : ℚ
  baseLF : ℚ
  pantryLF : ℚ
  drawers : ℚ
  accessories : ℚ
  finish : String
  shaped : Bool
  openShelf : Bool
  additionalItems : List AdditionalItem
deriving DecidableEq

/-- The breakdown record built by calculateLineItem. -/
structure Breakdown where
  upperM : ℚ
  baseM : ℚ
  pantryM : ℚ
  doorArea : ℚ
  carcassArea : ℚ
  doorRate : ℚ
  doorCost : ℚ
  carcassCost : ℚ
  drawerCost : ℚ
  accessoryCost : ℚ
  cabinetryGross : ℚ
  cabinetryUSD : ℚ
  additionalTotal : ℚ
  ratesUsed : Rates
  exchangeRate : ℚ
  itemData : ItemData
deriving DecidableEq

/-- The record returned by calculateLineItem. -/
structure CalculationResult where
  totalLF : ℚ
  cabinetry : ℚ
  shipping : ℚ
  install : ℚ
  additionalTotal : ℚ
  subtotal : ℚ
  finalPrice : ℚ
  dims : Dims
  breakdown : Breakdown
deriving DecidableEq

/-- The arithmetic body of calculateLineItem, taking the already-resolved
settings, dimensions and rates exactly as the source computes them on its
first three lines, plus the finish-rate table read via getFinishRates. -/
def computeLineItem (settings : Settings) (dims : Dims) (rates : Rates)
    (finishRates : List (String × FinishRate)) (item : Item) : CalculationResult :=
  let upperM := itemUpperM item
  let baseM := itemBaseM item
  let pantryM := itemPantryM item
  let totalLF := item.upperLF.getD 0 + item.baseLF.getD 0 + item.pantryLF.getD 0
  let doorArea := upperDoorArea dims upperM + baseDoorArea dims baseM + pantryDoorArea dims pantryM
  let carcassArea := calculateCarcassArea dims upperM baseM pantryM
  let finish := strOr item.finish "PVC"
  let shaped : Bool := item.shaped == some "yes"
  let openShelf : Bool := item.openShelf == some "yes"
  let doorRate :=
    if openShelf then 0
    else
      match finishRates.lookup finish with
      | some fr => if shaped then fr.shaped else fr.unshaped
      | none => 100
  let doorCost := doorArea * doorRate
  let carcassCost := carcassArea * dims.carcassRate
  let drawerCost := item.drawers.getD 0 * rates.drawerRate
  let accessoryCost := item.accessories.getD 0 * rates.accessoryRate
  let cabinetryGross := doorCost + carcassCost + drawerCost + accessoryCost
  let cabinetryUSD := cabinetryGross * (1 - rates.discountRate)
  let additionalTotal :=
    (item.additionalItems.getD []).foldl (fun sum a => sum + a.price.getD 0) 0
  let cabinetry := cabinetryUSD * settings.exchangeRate + additionalTotal
  let shipping := totalLF * rates.shippingRate
  let install := totalLF * rates.installRate
  let subtotal := cabinetry + shipping + install
  let finalPrice := subtotal * (1 + rates.markupRate)
  { totalLF := totalLF
    cabinetry := cabinetry
    shipping := shipping
    install := install
    additionalTotal := additionalTotal
    subtotal := subtotal
    finalPrice := finalPrice
    dims := dims
    breakdown :=
      { upperM := upperM
        baseM := baseM
        pantryM := pantryM
        doorArea := doorArea
        carcassArea := carcassArea
        doorRate := doorRate
        doorCost := doorCost
        carcassCost := carcassCost
        drawerCost := drawerCost
        accessoryCost := accessoryCost
        cabinetryGross := cabinetryGross
        cabinetryUSD := cabinetryUSD
        additionalTotal := additionalTotal
        ratesUsed := rates
        exchangeRate := settings.exchangeRate
        itemData :=
          { upperLF := item.upperLF.getD 0
            baseLF := item.baseLF.getD 0
            pantryLF := item.pantryLF.getD 0
            drawers := item.drawers.getD 0
            accessories := item.accessories.getD 0
            finish := finish
            shaped := shaped
            openShelf := openShelf
            additionalItems := item.additionalItems.getD [] } } }

/-- calculateLineItem from calculator.js. -/
def calculateLineItem (env : Env) (item : Item) : CalculationResult :=
  computeLineItem (getProjectSettings env) (getEffectiveDimensions env item)
    (getEffectiveRates env item) env.globalConfig.materials.finishRates item

/-- The record returned by calculateTotals. -/
structure Totals where
  totalLF : ℚ
  totalCabinetry : ℚ
  totalShipping : ℚ
  totalInstall : ℚ
  totalSubtotal : ℚ
  grandTotal : ℚ
deriving DecidableEq

/-- calculateTotals from calculator.js: a running accumulation over the
line items in order. -/
def calculateTotals (env : Env) (lineItems : List Item) : Totals :=
  lineItems.foldl
    (fun acc item =>
      let res := calculateLineItem env item
      { totalLF := acc.totalLF + res.totalLF
        totalCabinetry := acc.totalCabinetry + res.cabinetry
        totalShipping := acc.totalShipping + res.shipping
        totalInstall := acc.totalInstall + res.install
        totalSubtotal := acc.totalSubtotal + res.subtotal
        grandTotal := acc.grandTotal + res.finalPrice })
    ⟨0, 0, 0, 0, 0, 0⟩

/-- An environment with factory defaults, no quote overrides and no DOM
values: every project field takes its documented default. -/
def factoryEnv : Env := { globalConfig := FACTORY_DEFAULTS }

/-- The line item of the documented end-to-end scenario. -/
def exampleItem : Item :=
  { upperLF := some 10
    baseLF := some 15
    pantryLF := some 5
    drawers := some 8
    accessories := some 3
    finish := some "PVC"
    shaped := some "no" }

/-- The overridable rate keys of the cascade. -/
inductive RateKey
  | shipping
  | install
  | drawer
  | accessory
  | markup
  | discount
deriving DecidableEq

/-- Read the resolved value of a rate key from an effective-rates record. -/
def Rates.get (r : Rates) : RateKey → ℚ
  | .shipping => r.shippingRate
  | .install => r.installRate
  | .drawer => r.drawerRate
  | .accessory => r.accessoryRate
  | .markup => r.markupRate
  | .discount => r.discountRate

/-- Set one key of a nested rate-override record. -/
def RateOverrides.set (r : RateOverrides) : RateKey → Option ℚ → RateOverrides
  | .shipping, v => { r with shippingRate := v }
  | .install, v => { r with installRate := v }
  | .drawer, v => { r with drawerRate := v }
  | .accessory, v => { r with accessoryRate := v }
  | .markup, v => { r with markupRate := v }
  | .discount, v => { r with discountRate := v }

/-- Set one key of the nested item.overrides.rates record. -/
def Item.setRate (item : Item) (k : RateKey) (v : Option ℚ) : Item :=
  { item with overrides := { item.overrides with rates := item.overrides.rates.set k v } }

/-- Clear the legacy flat override field for a rate key. -/
def Item.clearRateFlat (item : Item) : RateKey → Item
  | .shipping => { item with overrideShippingRate := none }
  | .install => { item with overrideInstallRate := none }
  | .drawer => { item with overrideDrawerRate := none }
  | .accessory => { item with overrideAccessoryRate := none }
  | .markup => { item with overrideMarkupRate := none }
  | .discount => { item with overrideDiscountRate := none }

/-- Clear both the nested and the legacy flat override for a rate key. -/
def Item.clearRate (item : Item) (k : RateKey) : Item :=
  (item.setRate k none).clearRateFlat k

/-- Set one rate key of a quote-overrides record. -/
def QuoteOverrides.setRate (q : QuoteOverrides) : RateKey → Option ℚ → QuoteOverrides
  | .shipping, v => { q with shippingRate := v }
  | .install, v => { q with installRate := v }
  | .drawer, v => { q with drawerRate := v }
  | .accessory, v => { q with accessoryRate := v }
  | .markup, v => { q with markupRate := v }
  | .discount, v => { q with discountRate := v }

/-- Set one rate key of the quote tier of an environment. -/
def Env.setQuoteRate (env : Env) (k : RateKey) (v : Option ℚ) : Env :=
  { env with quoteOverrides := env.quoteOverrides.setRate k v }

/-- The effective value an override v produces for a key: markup and
discount are whole-number percentages and are divided by 100 at the point
of resolution, the other keys are taken as-is. -/
def rateFromOverride : RateKey → ℚ → ℚ
  | .markup, v => v / 100
  | .discount, v => v / 100
  | _, v => v

/-- The global-tier value of a rate key, as the resolver computes it: the
global markup is selected by project type before the cascade and converted
from a percentage, and so is the discount. -/
def globalRate (env : Env) : RateKey → ℚ
  | .shipping => env.globalConfig.rates.shippingRate
  | .install => env.globalConfig.rates.installRate
  | .drawer => env.globalConfig.rates.drawerRate
  | .accessory => env.globalConfig.rates.accessoryRate
  | .markup =>
      (if (strOr env.projectType "full" == "full" : Bool) then
        (Option.orElse env.globalConfig.rates.markupRateFull
          (fun _ => env.globalConfig.rates.markupRate)).getD 80
      else
        (Option.orElse env.globalConfig.rates.markupRateSingle
          (fun _ => env.globalConfig.rates.markupRate)).getD 90) / 100
  | .discount => env.globalConfig.rates.discountRate / 100

/-- The overridable numeric dimension keys of the cascade. -/
inductive DimKey
  | upperHt
  | baseHt
  | upperDp
  | baseDp
  | pantryDp
deriving DecidableEq

/-- Read the resolved value of a dimension key from an effective-dimensions
record. -/
def Dims.get (d : Dims) : DimKey → ℚ
  | .upperHt => d.upperHt
  | .baseHt => d.baseHt
  | .upperDp => d.upperDp
  | .baseDp => d.baseDp
  | .pantryDp => d.pantryDp

/-- Set one key of a nested dimension-override record. -/
def DimOverrides.set (d : DimOverrides) : DimKey → Option ℚ → DimOverrides
  | .upperHt, v => { d with upperHt := v }
  | .baseHt, v => { d with baseHt := v }
  | .upperDp, v => { d with upperDp := v }
  | .baseDp, v => { d with baseDp := v }
  | .pantryDp, v => { d with pantryDp := v }

/-- Set one key of the nested item.overrides.dimensions record. -/
def Item.setDim (item : Item) (k : DimKey) (v : Option ℚ) : Item :=
  { item with overrides := { item.overrides with dimensions := item.overrides.dimensions.set k v } }

/-- Clear the legacy flat override field for a dimension key. -/
def Item.clearDimFlat (item : Item) : DimKey → Item
  | .upperHt => { item with upperHt := none }
  | .baseHt => { item with baseHt := none }
  | .upperDp => { item with upperDp := none }
  | .baseDp => { item with baseDp := none }
  | .pantryDp => { item with pantryDp := none }

/-- Clear both the nested and the legacy flat override for a dimension key. -/
def Item.clearDim (item : Item) (k : DimKey) : Item :=
  (item.setDim k none).clearDimFlat k

/-- Set one dimension key of a quote-overrides record. -/
def QuoteOverrides.setDim (q : QuoteOverrides) : DimKey → Option ℚ → QuoteOverrides
  | .upperHt, v => { q with defaultUpperHt := v }
  | .baseHt, v => { q with defaultBaseHt := v }
  | .upperDp, v => { q with defaultUpperDp := v }
  | .baseDp, v => { q with defaultBaseDp := v }
  | .pantryDp, v => { q with defaultPantryDp := v }

/-- Set one dimension key of the quote tier of an environment. -/
def Env.setQuoteDim (env : Env) (k : DimKey) (v : Option ℚ) : Env :=
  { env with quoteOverrides := env.quoteOverrides.setDim k v }

/-- The global-tier value of a dimension key. -/
def globalDim (g : GlobalConfig) : DimKey → ℚ
  | .upperHt => g.dimensions.defaultUpperHt
  | .baseHt => g.dimensions.defaultBaseHt
  | .upperDp => g.dimensions.defaultUpperDp
  | .baseDp => g.dimensions.defaultBaseDp
  | .pantryDp => g.dimensions.defaultPantryDp

/-- A line item with a finish name that is not a key of the finish-rate
table. -/
def oakItem : Item := { upperLF := some 10, finish := some "Oak" }

/-- A line item naming a carcass supplier that is not a key of the
carcass-rate table. -/
def ikeaItem : Item := { upperLF := some 10, carcassSupplier := some "ikea" }

/-- Field-wise sums of the per-item results, the comparison value for the
aggregation-additivity property. -/
def fieldwiseSums (env : Env) (items : List Item) : Totals :=
  { totalLF := (items.map fun i => (calculateLineItem env i).totalLF).sum
    totalCabinetry := (items.map fun i => (calculateLineItem env i).cabinetry).sum
    totalShipping := (items.map fun i => (calculateLineItem env i).shipping).sum
    totalInstall := (items.map fun i => (calculateLineItem env i).install).sum
    totalSubtotal := (items.map fun i => (calculateLineItem env i).subtotal).sum
    grandTotal := (items.map fun i => (calculateLineItem env i).finalPrice).sum }

/-- C1: the documented end-to-end scenario figures do not match the code.
On the scenario inputs the pipeline produces a gross cabinetry cost of
5079.1858 USD, not approximately 5097.56, and a final price of
15131.1994524 CAD, not approximately 13227.80: both stated values miss by
far more than the 0.01 tolerance. -/
theorem c1_documented_example_fails :
    ¬ (5097.56 - 1 / 100 ≤ (calculateLineItem factoryEnv exampleItem).breakdown.cabinetryGross ∧
        (calculateLineItem factoryEnv exampleItem).breakdown.cabinetryGross ≤ 5097.56 + 1 / 100) ∧
    ¬ (13227.80 - 1 / 100 ≤ (calculateLineItem factoryEnv exampleItem).finalPrice ∧
        (calculateLineItem factoryEnv exampleItem).finalPrice ≤ 13227.80 + 1 / 100) := by
  simp [calculateLineItem, computeLineItem, getProjectSettings, getEffectiveDimensions,
    getEffectiveRates, factoryEnv, exampleItem, FACTORY_DEFAULTS, FINISH_RATES, CEILING_TO_MM,
    CEILING_TO_UPPER_HT, FEET_TO_METERS, lookupOr, truthyQ, truthyS, strOr, dimOverrideQ,
    dimOverrideS, rateOverride, upperCarcassArea, baseCarcassArea, pantryCarcassArea,
    calculateCarcassArea, upperDoorArea, baseDoorArea, pantryDoorArea, itemUpperM, itemBaseM,
    itemPantryM, List.lookup]
  norm_num

/-- C1 (amended): on the scenario inputs (upperLF=10, baseLF=15, pantryLF=5,
8 ft ceiling, PVC unshaped, holike carcass at 65/sqm, 8 drawers,
3 accessories, shipping 60/LF, install 100/LF, exchange 1.42, markup 80
percent, discount 50 percent) calculateLineItem returns totalLF = 30,
doorArea = 10.25652 sqm, gross cabinetry 5079.1858 USD, cabinetry after
discount 2539.5929 USD, shipping 1800 CAD, install 3000 CAD, subtotal
8406.221918 CAD (the discounted cabinetry is converted to CAD at 1.42),
and finalPrice 15131.1994524 CAD. -/
theorem c1_actual_pipeline_values :
    (calculateLineItem factoryEnv exampleItem).totalLF = 30 ∧
    (calculateLineItem factoryEnv exampleItem).breakdown.doorArea = 10.25652 ∧
    (calculateLineItem factoryEnv exampleItem).breakdown.cabinetryGross = 5079.1858 ∧
    (calculateLineItem factoryEnv exampleItem).breakdown.cabinetryUSD = 2539.5929 ∧
    (calculateLineItem factoryEnv exampleItem).shipping = 1800 ∧
    (calculateLineItem factoryEnv exampleItem).install = 3000 ∧
    (calculateLineItem factoryEnv exampleItem).subtotal = 8406.221918 ∧
    (calculateLineItem factoryEnv exampleItem).finalPrice = 15131.1994524 := by
  simp [calculateLineItem, computeLineItem, getProjectSettings, getEffectiveDimensions,
    getEffectiveRates, factoryEnv, exampleItem, FACTORY_DEFAULTS, FINISH_RATES, CEILING_TO_MM,
    CEILING_TO_UPPER_HT, FEET_TO_METERS, lookupOr, truthyQ, truthyS, strOr, dimOverrideQ,
    dimOverrideS, rateOverride, upperCarcassArea, baseCarcassArea, pantryCarcassArea,
    calculateCarcassArea, upperDoorArea, baseDoorArea, pantryDoorArea, itemUpperM, itemBaseM,
    itemPantryM, List.lookup]
  norm_num

/-- C2: for a finish name absent from the finish-rate table the engine does
not raise; it silently prices the doors at the hardcoded fallback rate of
100 USD/sqm (here on 10 LF of upper cabinets, a door cost of 231.648 USD). -/
theorem c2_unknown_finish_uses_default_rate :
    FINISH_RATES.lookup "Oak" = none ∧
    (calculateLineItem factoryEnv oakItem).breakdown.doorRate = 100 ∧
    (calculateLineItem factoryEnv oakItem).breakdown.doorCost = 231.648 := by
  simp [calculateLineItem, computeLineItem, getProjectSettings, getEffectiveDimensions,
    getEffectiveRates, factoryEnv, oakItem, FACTORY_DEFAULTS, FINISH_RATES, CEILING_TO_MM,
    CEILING_TO_UPPER_HT, FEET_TO_METERS, lookupOr, truthyQ, truthyS, strOr, dimOverrideQ,
    dimOverrideS, rateOverride, upperCarcassArea, baseCarcassArea, pantryCarcassArea,
    calculateCarcassArea, upperDoorArea, baseDoorArea, pantryDoorArea, itemUpperM, itemBaseM,
    itemPantryM, List.lookup]
  norm_num

/-- C3: for a carcass supplier name that is not a key of the carcass-rate
table, settings resolution does not raise; every supplier other than
holike — including the unknown name ikea — is silently priced at the
allure rate (200 USD/sqm with factory defaults). -/
theorem c3_unknown_supplier_uses_allure_rate :
    ("ikea" : String) ≠ "holike" ∧ ("ikea" : String) ≠ "allure" ∧
    (getEffectiveDimensions factoryEnv ikeaItem).carcassSupplier = "ikea" ∧
    (getEffectiveDimensions factoryEnv ikeaItem).carcassRate = 200 ∧
    (getEffectiveDimensions factoryEnv ikeaItem).carcassRate =
      FACTORY_DEFAULTS.materials.carcassRates.allure := by
  refine ⟨by decide, by decide, ?_, ?_, ?_⟩ <;>
    simp [getEffectiveDimensions, getProjectSettings, factoryEnv, ikeaItem, FACTORY_DEFAULTS,
      CEILING_TO_MM, CEILING_TO_UPPER_HT, lookupOr, truthyQ, truthyS, strOr, dimOverrideQ,
      dimOverrideS, List.lookup]

/-- C9: calculateLineItem does not take all configuration as explicit
arguments; it reads the project fields from the DOM and the quote
overrides from the window singleton.  Two runs with the same global
config, the same quote overrides and the same line item, differing only
in the ambient DOM carcass-supplier field, return different results.
(Given a fixed ambient environment the embedding is a pure function, so
two runs with identical ambient state and inputs are identical.) -/
theorem c9_ambient_state_dependence :
    ({ factoryEnv with carcassSupplier := some "allure" } : Env).globalConfig =
        factoryEnv.globalConfig ∧
    ({ factoryEnv with carcassSupplier := some "allure" } : Env).quoteOverrides =
        factoryEnv.quoteOverrides ∧
    (calculateLineItem { factoryEnv with carcassSupplier := some "allure" } exampleItem).finalPrice ≠
      (calculateLineItem factoryEnv exampleItem).finalPrice := by
  refine ⟨rfl, rfl, ?_⟩
  simp [calculateLineItem, computeLineItem, getProjectSettings, getEffectiveDimensions,
    getEffectiveRates, factoryEnv, exampleItem, FACTORY_DEFAULTS, FINISH_RATES, CEILING_TO_MM,
    CEILING_TO_UPPER_HT, FEET_TO_METERS, lookupOr, truthyQ, truthyS, strOr, dimOverrideQ,
    dimOverrideS, rateOverride, upperCarcassArea, baseCarcassArea, pantryCarcassArea,
    calculateCarcassArea, upperDoorArea, baseDoorArea, pantryDoorArea, itemUpperM, itemBaseM,
    itemPantryM, List.lookup]
  norm_num

/-- C10: an absent physical input field is read as 0 (additional items as
the empty list, the finish as PVC) and the calculation result is exactly
the one obtained with the explicit default value; the function is total,
so it returns a result in every case. -/
theorem c10_absent_fields_default (env : Env) (item : Item) :
    calculateLineItem env { item with upperLF := none } =
        calculateLineItem env { item with upperLF := some 0 } ∧
    calculateLineItem env { item with baseLF := none } =
        calculateLineItem env { item with baseLF := some 0 } ∧
    calculateLineItem env { item with pantryLF := none } =
        calculateLineItem env { item with pantryLF := some 0 } ∧
    calculateLineItem env { item with drawers := none } =
        calculateLineItem env { item with drawers := some 0 } ∧
    calculateLineItem env { item with accessories := none } =
        calculateLineItem env { item with accessories := some 0 } ∧
    calculateLineItem env { item with additionalItems := none } =
        calculateLineItem env { item with additionalItems := some [] } ∧
    calculateLineItem env { item with finish := none } =
        calculateLineItem env { item with finish := some "PVC" } :=
  ⟨rfl, rfl, rfl, rfl, rfl, rfl, rfl⟩

/-- C4: a line-item dimension override explicitly set to 0 is not honored.
With overrides.dimensions.baseHt = 0, no quote override and factory
defaults, the effective base height is the global default 920, not the
override value 0: the dimension cascade reads overrides with a truthiness
test, so 0 is conflated with not set. -/
theorem c4_zero_dimension_override_ignored :
    (Item.setDim {} DimKey.baseHt (some 0)).overrides.dimensions.baseHt = some 0 ∧
    factoryEnv.quoteOverrides.defaultBaseHt = none ∧
    (getEffectiveDimensions factoryEnv (Item.setDim {} DimKey.baseHt (some 0))).baseHt = 920 ∧
    (920 : ℚ) ≠ 0 := by
  refine ⟨rfl, rfl, ?_, by norm_num⟩
  simp [getEffectiveDimensions, getProjectSettings, factoryEnv, FACTORY_DEFAULTS, Item.setDim,
    DimOverrides.set, CEILING_TO_MM, CEILING_TO_UPPER_HT, lookupOr, truthyQ, truthyS, strOr,
    dimOverrideQ, dimOverrideS, List.lookup]

/-- C4 (amended): the cascade is per-key with null/absent as inherit, but
the two kinds of keys treat an explicit 0 differently.  Rate keys: a
line-item override wins for every value including 0 (markup and discount
are divided by 100), else a quote override wins (including 0), else the
global value (markup selected by project type and converted from a
percentage, as is discount).  Dimension keys: a nonzero line-item
override wins, but a line-item override of 0 is read as absent and
resolution proceeds exactly as if it were unset; with no line-item
override, for every key except the upper height a quote-level override
wins for every value including 0, else the global default.  For the
upper height, with no line-item override the effective value is the
ceiling-driven base height, so the ceiling-height lookup shadows a
quote-level defaultUpperHt override (the override only serves as the
fallback of the lookup): with factory defaults and an 8 ft ceiling a
quote-level defaultUpperHt of 1000 resolves to 760, not 1000. -/
theorem c4_cascade_amended (env : Env) (item : Item) (v : ℚ) :
    (∀ k, (getEffectiveRates env (item.setRate k (some v))).get k = rateFromOverride k v) ∧
    (∀ k, (getEffectiveRates (env.setQuoteRate k (some v)) (item.clearRate k)).get k =
        rateFromOverride k v) ∧
    (∀ k, (getEffectiveRates (env.setQuoteRate k none) (item.clearRate k)).get k =
        globalRate env k) ∧
    (v ≠ 0 → ∀ k, (getEffectiveDimensions env (item.setDim k (some v))).get k = v) ∧
    (∀ k, (getEffectiveDimensions env ((item.clearDim k).setDim k (some 0))).get k =
        (getEffectiveDimensions env (item.clearDim k)).get k) ∧
    (∀ k, k ≠ DimKey.upperHt →
        (getEffectiveDimensions (env.setQuoteDim k (some v)) (item.clearDim k)).get k = v) ∧
    (∀ k, k ≠ DimKey.upperHt →
        (getEffectiveDimensions (env.setQuoteDim k none) (item.clearDim k)).get k =
          globalDim env.globalConfig k) ∧
    ((getEffectiveDimensions (env.setQuoteDim DimKey.upperHt (some v))
          (item.clearDim DimKey.upperHt)).upperHt =
      (getEffectiveDimensions (env.setQuoteDim DimKey.upperHt (some v))
          (item.clearDim DimKey.upperHt)).baseUpperHt) ∧
    ((getEffectiveDimensions (factoryEnv.setQuoteDim DimKey.upperHt (some 1000)) {}).upperHt =
        760) ∧
    ((getEffectiveDimensions (factoryEnv.setQuoteDim DimKey.upperHt (some 1000)) {}).upperHt ≠
        1000) := by
  refine ⟨fun k => ?_, fun k => ?_, fun k => ?_, fun hv k => ?_, fun k => ?_,
    fun k hk => ?_, fun k hk => ?_, rfl, ?_, ?_⟩
  · cases k <;> rfl
  · cases k <;> rfl
  · cases k <;> rfl
  · cases k <;>
      simp [getEffectiveDimensions, Item.setDim, DimOverrides.set, Dims.get, dimOverrideQ,
        truthyQ, hv]
  · cases k <;>
      simp [getEffectiveDimensions, Item.setDim, Item.clearDim, Item.clearDimFlat,
        DimOverrides.set, Dims.get, dimOverrideQ, truthyQ]
  · cases k with
    | upperHt => exact absurd rfl hk
    | baseHt => rfl
    | upperDp => rfl
    | baseDp => rfl
    | pantryDp => rfl
  · cases k with
    | upperHt => exact absurd rfl hk
    | baseHt => rfl
    | upperDp => rfl
    | baseDp => rfl
    | pantryDp => rfl
  · simp [getEffectiveDimensions, getProjectSettings, Env.setQuoteDim, QuoteOverrides.setDim,
      factoryEnv, FACTORY_DEFAULTS, CEILING_TO_MM, CEILING_TO_UPPER_HT, lookupOr, truthyQ,
      truthyS, strOr, dimOverrideQ, dimOverrideS, List.lookup]
  · simp [getEffectiveDimensions, getProjectSettings, Env.setQuoteDim, QuoteOverrides.setDim,
      factoryEnv, FACTORY_DEFAULTS, CEILING_TO_MM, CEILING_TO_UPPER_HT, lookupOr, truthyQ,
      truthyS, strOr, dimOverrideQ, dimOverrideS, List.lookup]

/-- C4 witness: the theorem applied at the factory environment, the empty
item and the value 5, discharging the nonzero hypothesis of the
line-tier dimension clause at the base-height key. -/
theorem c4_cascade_amended_witness :
    (5 : ℚ) ≠ 0 ∧
    (getEffectiveDimensions factoryEnv (Item.setDim {} DimKey.baseHt (some 5))).get
        DimKey.baseHt = 5 :=
  ⟨by norm_num, ((c4_cascade_amended factoryEnv {} 5).2.2.2.1 (by norm_num)) DimKey.baseHt⟩

/-- C5: each cabinet group with zero linear footage contributes exactly
zero to both the door area and the carcass area, whatever the effective
heights and depths are; the two areas computed by calculateLineItem are
exactly the sums of the three per-group contributions. -/
theorem c5_zero_length_group_zero_area (env : Env) (item : Item) :
    ((calculateLineItem env item).breakdown.doorArea =
        upperDoorArea (getEffectiveDimensions env item) (itemUpperM item) +
          baseDoorArea (getEffectiveDimensions env item) (itemBaseM item) +
          pantryDoorArea (getEffectiveDimensions env item) (itemPantryM item)) ∧
    ((calculateLineItem env item).breakdown.carcassArea =
        upperCarcassArea (getEffectiveDimensions env item) (itemUpperM item) +
          baseCarcassArea (getEffectiveDimensions env item) (itemBaseM item) +
          pantryCarcassArea (getEffectiveDimensions env item) (itemPantryM item)) ∧
    (item.upperLF.getD 0 = 0 →
        upperDoorArea (getEffectiveDimensions env item) (itemUpperM item) = 0 ∧
          upperCarcassArea (getEffectiveDimensions env item) (itemUpperM item) = 0) ∧
    (item.baseLF.getD 0 = 0 →
        baseDoorArea (getEffectiveDimensions env item) (itemBaseM item) = 0 ∧
          baseCarcassArea (getEffectiveDimensions env item) (itemBaseM item) = 0) ∧
    (item.pantryLF.getD 0 = 0 →
        pantryDoorArea (getEffectiveDimensions env item) (itemPantryM item) = 0 ∧
          pantryCarcassArea (getEffectiveDimensions env item) (itemPantryM item) = 0) := by
  refine ⟨rfl, rfl, fun h => ⟨?_, ?_⟩, fun h => ⟨?_, ?_⟩, fun h => ⟨?_, ?_⟩⟩ <;>
    simp [upperDoorArea, baseDoorArea, pantryDoorArea, upperCarcassArea, baseCarcassArea,
      pantryCarcassArea, itemUpperM, itemBaseM, itemPantryM, h]

/-- C5 witness: the empty item has zero upper linear footage, and its upper
group contributes zero door area. -/
theorem c5_zero_length_group_zero_area_witness :
    (({} : Item).upperLF.getD 0 = 0) ∧
    upperDoorArea (getEffectiveDimensions factoryEnv {}) (itemUpperM {}) = 0 :=
  ⟨rfl, ((c5_zero_length_group_zero_area factoryEnv {}).2.2.1 rfl).1⟩

/-- Pure algebra behind the discount claim. -/
lemma discount_algebra (G A ex ship inst m d1 d2 : ℚ) (hd : d1 < d2) (hG : 0 < G)
    (hex : 0 < ex) (hm : 0 ≤ m) :
    G * (1 - d2) * ex + A < G * (1 - d1) * ex + A ∧
    (G * (1 - d2) * ex + A + ship + inst) * (1 + m) <
      (G * (1 - d1) * ex + A + ship + inst) * (1 + m) := by
  have h1 : 0 < G * ex * (d2 - d1) := mul_pos (mul_pos hG hex) (sub_pos.mpr hd)
  have h1m : (0 : ℚ) < 1 + m := by linarith
  constructor
  · nlinarith [h1]
  · nlinarith [mul_pos h1 h1m]

/-- C6 counterexample: for the empty line item (zero gross cabinetry cost)
a strictly larger discount rate leaves cabinetry unchanged at 0, so the
strict decrease claimed for every line item fails. -/
theorem c6_discount_not_strict_on_zero_gross :
    (getEffectiveRates factoryEnv {}).discountRate < 9 / 10 ∧
    ¬ ((computeLineItem (getProjectSettings factoryEnv) (getEffectiveDimensions factoryEnv {})
          { getEffectiveRates factoryEnv {} with discountRate := 9 / 10 } FINISH_RATES {}).cabinetry <
        (computeLineItem (getProjectSettings factoryEnv) (getEffectiveDimensions factoryEnv {})
          (getEffectiveRates factoryEnv {}) FINISH_RATES {}).cabinetry) := by
  constructor
  · simp [getEffectiveRates, getProjectSettings, factoryEnv, FACTORY_DEFAULTS, rateOverride]
    norm_num
  · simp [computeLineItem, getProjectSettings, getEffectiveDimensions, getEffectiveRates,
      factoryEnv, FACTORY_DEFAULTS, FINISH_RATES, CEILING_TO_MM, CEILING_TO_UPPER_HT,
      FEET_TO_METERS, lookupOr, truthyQ, truthyS, strOr, dimOverrideQ, dimOverrideS,
      rateOverride, upperCarcassArea, baseCarcassArea, pantryCarcassArea, calculateCarcassArea,
      upperDoorArea, baseDoorArea, pantryDoorArea, itemUpperM, itemBaseM, itemPantryM,
      List.lookup]

/-- C6 (amended): with a strictly positive gross cabinetry cost, a positive
exchange rate and a nonnegative markup rate, raising the discount rate
strictly lowers the CAD cabinetry cost and the final price, and leaves
shipping and install unchanged. -/
theorem c6_discount_monotone_amended (s : Settings) (dims : Dims) (r : Rates)
    (fr : List (String × FinishRate)) (item : Item) (d2 : ℚ)
    (hd : r.discountRate < d2)
    (hgross : 0 < (computeLineItem s dims r fr item).breakdown.cabinetryGross)
    (hex : 0 < s.exchangeRate) (hm : 0 ≤ r.markupRate) :
    (computeLineItem s dims { r with discountRate := d2 } fr item).cabinetry <
        (computeLineItem s dims r fr item).cabinetry ∧
    (computeLineItem s dims { r with discountRate := d2 } fr item).finalPrice <
        (computeLineItem s dims r fr item).finalPrice ∧
    (computeLineItem s dims { r with discountRate := d2 } fr item).shipping =
        (computeLineItem s dims r fr item).shipping ∧
    (computeLineItem s dims { r with discountRate := d2 } fr item).install =
        (computeLineItem s dims r fr item).install := by
  have h := discount_algebra ((computeLineItem s dims r fr item).breakdown.cabinetryGross)
    ((computeLineItem s dims r fr item).additionalTotal) s.exchangeRate
    ((computeLineItem s dims r fr item).shipping) ((computeLineItem s dims r fr item).install)
    r.markupRate r.discountRate d2 hd hgross hex hm
  exact ⟨h.1, h.2, rfl, rfl⟩

/-- C6 witness: the theorem applied to the documented scenario item with
the factory settings and a discount raised from 50 to 60 percent. -/
theorem c6_discount_monotone_amended_witness :
    ((getEffectiveRates factoryEnv exampleItem).discountRate < 3 / 5 ∧
      0 < (computeLineItem (getProjectSettings factoryEnv)
            (getEffectiveDimensions factoryEnv exampleItem)
            (getEffectiveRates factoryEnv exampleItem) FINISH_RATES
            exampleItem).breakdown.cabinetryGross ∧
      0 < (getProjectSettings factoryEnv).exchangeRate ∧
      0 ≤ (getEffectiveRates factoryEnv exampleItem).markupRate) ∧
    (computeLineItem (getProjectSettings factoryEnv) (getEffectiveDimensions factoryEnv exampleItem)
        { getEffectiveRates factoryEnv exampleItem with discountRate := 3 / 5 } FINISH_RATES
        exampleItem).cabinetry <
      (computeLineItem (getProjectSettings factoryEnv) (getEffectiveDimensions factoryEnv exampleItem)
        (getEffectiveRates factoryEnv exampleItem) FINISH_RATES exampleItem).cabinetry := by
  have hd : (getEffectiveRates factoryEnv exampleItem).discountRate < 3 / 5 := by
    simp [getEffectiveRates, getProjectSettings, factoryEnv, exampleItem, FACTORY_DEFAULTS,
      rateOverride, strOr, Option.orElse]
    norm_num
  have hgross : 0 < (computeLineItem (getProjectSettings factoryEnv)
      (getEffectiveDimensions factoryEnv exampleItem)
      (getEffectiveRates factoryEnv exampleItem) FINISH_RATES
      exampleItem).breakdown.cabinetryGross := by
    simp [computeLineItem, getProjectSettings, getEffectiveDimensions, getEffectiveRates,
      factoryEnv, exampleItem, FACTORY_DEFAULTS, FINISH_RATES, CEILING_TO_MM,
      CEILING_TO_UPPER_HT, FEET_TO_METERS, lookupOr, truthyQ, truthyS, strOr, dimOverrideQ,
      dimOverrideS, rateOverride, upperCarcassArea, baseCarcassArea, pantryCarcassArea,
      calculateCarcassArea, upperDoorArea, baseDoorArea, pantryDoorArea, itemUpperM, itemBaseM,
      itemPantryM, List.lookup]
    norm_num
  have hex : 0 < (getProjectSettings factoryEnv).exchangeRate := by
    simp [getProjectSettings, factoryEnv, FACTORY_DEFAULTS]
    norm_num
  have hm : 0 ≤ (getEffectiveRates factoryEnv exampleItem).markupRate := by
    simp [getEffectiveRates, getProjectSettings, factoryEnv, exampleItem, FACTORY_DEFAULTS,
      rateOverride, strOr, Option.orElse]
    norm_num
  exact ⟨⟨hd, hgross, hex, hm⟩,
    (c6_discount_monotone_amended (getProjectSettings factoryEnv)
      (getEffectiveDimensions factoryEnv exampleItem) (getEffectiveRates factoryEnv exampleItem)
      FINISH_RATES exampleItem (3 / 5) hd hgross hex hm).1⟩

/-- C7: raising the markup rate by a positive delta leaves the subtotal
unchanged and raises the final price by exactly subtotal times delta. -/
theorem c7_markup_delta_exact (s : Settings) (dims : Dims) (r : Rates)
    (fr : List (String × FinishRate)) (item : Item) (d : ℚ) (_hpos : 0 < d) :
    (computeLineItem s dims { r with markupRate := r.markupRate + d } fr item).subtotal =
        (computeLineItem s dims r fr item).subtotal ∧
    (computeLineItem s dims { r with markupRate := r.markupRate + d } fr item).finalPrice =
        (computeLineItem s dims r fr item).finalPrice +
          (computeLineItem s dims r fr item).subtotal * d := by
  refine ⟨rfl, ?_⟩
  show (computeLineItem s dims r fr item).subtotal * (1 + (r.markupRate + d)) =
      (computeLineItem s dims r fr item).subtotal * (1 + r.markupRate) +
        (computeLineItem s dims r fr item).subtotal * d
  ring

/-- C7 witness: the theorem applied to the documented scenario with the
markup raised from 80 to 90 percent (delta one tenth). -/
theorem c7_markup_delta_exact_witness :
    (0 : ℚ) < 1 / 10 ∧
    (computeLineItem (getProjectSettings factoryEnv) (getEffectiveDimensions factoryEnv exampleItem)
        { getEffectiveRates factoryEnv exampleItem with
            markupRate := (getEffectiveRates factoryEnv exampleItem).markupRate + 1 / 10 }
        FINISH_RATES exampleItem).subtotal =
      (computeLineItem (getProjectSettings factoryEnv)
        (getEffectiveDimensions factoryEnv exampleItem)
        (getEffectiveRates factoryEnv exampleItem) FINISH_RATES exampleItem).subtotal :=
  ⟨by norm_num,
    (c7_markup_delta_exact (getProjectSettings factoryEnv)
      (getEffectiveDimensions factoryEnv exampleItem) (getEffectiveRates factoryEnv exampleItem)
      FINISH_RATES exampleItem (1 / 10) (by norm_num)).1⟩


/-- The accumulation loop of calculateTotals, run from any accumulator,
adds the field-wise sums to it. -/
lemma calculateTotals_go (env : Env) (items : List Item) (acc : Totals) :
    items.foldl
      (fun acc item =>
        let res := calculateLineItem env item
        { totalLF := acc.totalLF + res.totalLF
          totalCabinetry := acc.totalCabinetry + res.cabinetry
          totalShipping := acc.totalShipping + res.shipping
          totalInstall := acc.totalInstall + res.install
          totalSubtotal := acc.totalSubtotal + res.subtotal
          grandTotal := acc.grandTotal + res.finalPrice }) acc =
    { totalLF := acc.totalLF + (fieldwiseSums env items).totalLF
      totalCabinetry := acc.totalCabinetry + (fieldwiseSums env items).totalCabinetry
      totalShipping := acc.totalShipping + (fieldwiseSums env items).totalShipping
      totalInstall := acc.totalInstall + (fieldwiseSums env items).totalInstall
      totalSubtotal := acc.totalSubtotal + (fieldwiseSums env items).totalSubtotal
      grandTotal := acc.grandTotal + (fieldwiseSums env items).grandTotal } := by
  induction items generalizing acc with
  | nil => simp [fieldwiseSums]
  | cons head tail ih =>
    simp only [List.foldl_cons, ih, fieldwiseSums, List.map_cons, List.sum_cons]
    simp [add_assoc]

/-- C8: calculateTotals equals the field-wise sum of calculateLineItem over
the items, and over exact rational arithmetic it is invariant under every
permutation of the item list. -/
theorem c8_totals_additive_perm_invariant (env : Env) (items1 items2 : List Item)
    (hp : items1.Perm items2) :
    calculateTotals env items1 = fieldwiseSums env items1 ∧
    calculateTotals env items1 = calculateTotals env items2 := by
  have key : ∀ items : List Item, calculateTotals env items = fieldwiseSums env items := by
    intro items
    simp only [calculateTotals]
    rw [calculateTotals_go]
    simp
  refine ⟨key items1, ?_⟩
  rw [key items1, key items2]
  simp only [fieldwiseSums, Totals.mk.injEq]
  exact ⟨(hp.map _).sum_eq, (hp.map _).sum_eq, (hp.map _).sum_eq, (hp.map _).sum_eq,
    (hp.map _).sum_eq, (hp.map _).sum_eq⟩

/-- C8 witness: a two-item list and its swap give the same totals. -/
theorem c8_totals_additive_perm_invariant_witness :
    ([exampleItem, ({} : Item)].Perm [({} : Item), exampleItem]) ∧
    calculateTotals factoryEnv [exampleItem, {}] =
      calculateTotals factoryEnv [{}, exampleItem] :=
  ⟨List.Perm.swap ({} : Item) exampleItem [],
    (c8_totals_additive_perm_invariant factoryEnv [exampleItem, {}] [{}, exampleItem]
      (List.Perm.swap ({} : Item) exampleItem [])).2⟩
